import Mathlib

/-!
Verification of the knative-client serving v1alpha1 client facade
(`pkg/serving/v1alpha1/client.go`): a shallow embedding of the data
model and the operations of the file, with theorems checking the
natural-language specification against it.

Go methods returning `(T, error)` are embedded as Lean functions into
`Except ClientError T`; the cluster collaborator (the generated
clientset) is passed in as an explicit function argument.
-/

namespace KnClient

/-- Mirrors `k8s.io/apimachinery` TypeMeta: the group/version/kind
annotation carried by every object. -/
structure TypeMeta where
  apiVersion : String
  kind : String
  deriving DecidableEq, Repr

/-- Mirrors `apis.Condition` from `knative.dev/pkg/apis`: a typed status
entry with tri-state value given by the strings True, False, Unknown. -/
structure Condition where
  condType : String
  status : String
  reason : String
  message : String
  deriving DecidableEq, Repr

/-- Mirrors `corev1.Container` restricted to the one field the client
reads, its image reference. -/
structure Container where
  image : String
  deriving DecidableEq, Repr

/-- Mirrors `v1alpha1.RevisionSpec` restricted to what the client reads:
the container carried by the spec, absent when the spec names none. -/
structure RevisionSpec where
  container : Option Container
  deriving DecidableEq, Repr

/-- Mirrors `v1alpha1.Revision`. -/
structure Revision where
  typeMeta : TypeMeta
  name : String
  spec : RevisionSpec
  deriving DecidableEq, Repr

/-- Mirrors `v1alpha1.RevisionTemplateSpec`: the desired revision inside
a service, with its optional explicit name and its container. -/
structure RevisionTemplate where
  name : String
  container : Option Container
  deriving DecidableEq, Repr

/-- Mirrors `v1alpha1.ServiceStatus` restricted to the fields the client
reads: the latest-created pointer and the condition set. -/
structure ServiceStatus where
  latestCreatedRevisionName : String
  conditions : List Condition
  deriving DecidableEq, Repr

/-- Mirrors `v1alpha1.Service` restricted to the fields the client
reads; the revision template is optional because a v1alpha1 service may
carry no usable template, which `RevisionTemplateOfService` reports as
an error. -/
structure Service where
  typeMeta : TypeMeta
  name : String
  template : Option RevisionTemplate
  status : ServiceStatus
  deriving DecidableEq, Repr

/-- Errors produced by the client, distinguished by constructor exactly
as the Go code distinguishes them by dynamic type: a collaborator
not-found error, the distinguished `NoBaseRevisionError`, and a generic
error with a message. -/
inductive ClientError where
  | notFound (name : String)
  | noBaseRevision (msg : String)
  | generic (msg : String)
  deriving DecidableEq, Repr

/-- Mirrors `var noBaseRevisionError = &NoBaseRevisionError{"base revision not found"}`. -/
def noBaseRevisionError : ClientError := .noBaseRevision "base revision not found"

/-- Modelled from the spec: `serving.RevisionTemplateOfService` is code
of this repository outside the provided sources; per the spec the parent
resource specifies a desired child template, and extraction fails when
none is present. -/
def RevisionTemplateOfService (service : Service) : Except ClientError RevisionTemplate :=
  match service.template with
  | none => .error (.generic "no revision template found in service")
  | some t => .ok t

/-- Modelled from the spec: `serving.ContainerOfRevisionSpec` is code of
this repository outside the provided sources; it projects a revision
spec to its primary container, failing when none is present. -/
def ContainerOfRevisionSpec (spec : RevisionSpec) : Except ClientError Container :=
  match spec.container with
  | none => .error (.generic "no container found in revision spec")
  | some c => .ok c

/-- Modelled from the spec: `serving.ContainerOfRevisionTemplate` is
code of this repository outside the provided sources; it projects a
revision template to its primary container, failing when none is
present. -/
def ContainerOfRevisionTemplate (template : RevisionTemplate) : Except ClientError Container :=
  match template.container with
  | none => .error (.generic "no container found in revision template")
  | some c => .ok c

/-- The serving v1alpha1 group/version written by `updateServingGvk`. -/
def servingApiVersion : String := "serving.knative.dev/v1alpha1"

/-- Modelled from the spec: `util.UpdateGroupVersionKindWithScheme` is
code of this repository outside the provided sources; the spec places
version-annotation mechanics out of scope, so the update is modelled as
stamping the serving group/version and the given kind onto the object's
TypeMeta, always succeeding. -/
def updateGvk (kind : String) (_tm : TypeMeta) : TypeMeta :=
  { apiVersion := servingApiVersion, kind := kind }

/-- `updateServingGvk` applied to a revision (kind Revision). -/
def updateServingGvkRevision (r : Revision) : Revision :=
  { r with typeMeta := updateGvk "Revision" r.typeMeta }

/-- The cluster store for revisions, as seen through the collaborator's
`Revisions(namespace).Get`: a partial map from name to revision, a
missing name yielding the collaborator's NotFound error. -/
abbrev ClusterRevisions := String → Option Revision

/-- Mirrors `knServingClient.GetRevision` (client.go lines 228 to 238):
fetch from the collaborator, surface its error through
`kn_errors.GetError` (modelled as the identity per the spec's
propagated-verbatim contract), then update the group/version/kind. -/
def GetRevision (store : ClusterRevisions) (name : String) : Except ClientError Revision :=
  match store name with
  | none => .error (.notFound name)
  | some revision => .ok (updateServingGvkRevision revision)

/-- Mirrors `getBaseRevision` (client.go lines 258 to 294), parametrised
by the revision-fetching operation `getRev` standing for the method
`cl.GetRevision` of the `KnServingClient` interface value. -/
def getBaseRevision (getRev : String → Except ClientError Revision)
    (service : Service) : Except ClientError Revision :=
  match RevisionTemplateOfService service with
  | .error e => .error e
  | .ok template =>
    if template.name ≠ "" then
      getRev template.name
    else if service.status.latestCreatedRevisionName ≠ "" then
      match getRev service.status.latestCreatedRevisionName with
      | .error e => .error e
      | .ok latestCreated =>
        match ContainerOfRevisionSpec latestCreated.spec with
        | .error e => .error e
        | .ok latestContainer =>
          match ContainerOfRevisionTemplate template with
          | .error e => .error e
          | .ok container =>
            if latestContainer.image ≠ container.image then
              .error noBaseRevisionError
            else
              .ok latestCreated
    else
      .error noBaseRevisionError

/-- Runtime objects as delivered by a generic watch channel: the service
kind the extractor expects, and other kinds it must reject. -/
inductive RuntimeObject where
  | service (s : Service)
  | revision (r : Revision)
  | other (desc : String)
  deriving DecidableEq, Repr

/-- A printable description of a runtime object, standing for Go's
percent-v formatting in the extractor's error message. -/
def RuntimeObject.describe : RuntimeObject → String
  | .service s => "service " ++ s.name
  | .revision r => "revision " ++ r.name
  | .other d => d

/-- Mirrors `serviceConditionExtractor` (client.go lines 394 to 400):
the type assertion to a service succeeds exactly on service objects; any
other object yields the formatted error. -/
def serviceConditionExtractor : RuntimeObject → Except ClientError (List Condition)
  | .service s => .ok s.status.conditions
  | obj => .error (.generic (obj.describe ++ " is not a service"))

/-- Readiness of a condition set per the spec's condition model: true
iff a condition of type Ready exists with status True. -/
def isReadyConditions (conds : List Condition) : Bool :=
  conds.any (fun c => c.condType = "Ready" && c.status = "True")

/-- Failure of a condition set per the spec's condition model: the
reason of a Ready condition with status False, when one exists. -/
def failedReasonConditions (conds : List Condition) : Option String :=
  (conds.find? (fun c => c.condType = "Ready" && c.status = "False")).map Condition.reason

/-- Event kinds delivered by a watch stream. -/
inductive EventKind where
  | added
  | modified
  | deleted
  | errorEvent
  deriving DecidableEq, Repr

/-- One item of a watch stream: its arrival time (abstract clock ticks
since `Wait` started), its event kind, and the carried object together
with the name the event is about. -/
structure StreamItem where
  time : Nat
  kind : EventKind
  objName : String
  obj : RuntimeObject
  deriving Repr

/-- A watch function as consumed by `wait.NewWaitForReady`: for a
resource name and a subscription attempt index it yields the stream of
items that subscription delivers, the list ending when the underlying
channel closes. -/
abbrev WatchFn := String → Nat → List StreamItem

/-- Terminal outcomes of a `Wait` call. -/
inductive WaitOutcome where
  | success
  | failed (reason : String)
  | timedOut
  | errored
  deriving DecidableEq, Repr

/-- Subscription bookkeeping actions emitted by a `Wait` call, in
order. -/
inductive WaitAction where
  | subscribe
  | close
  deriving DecidableEq, Repr

/-- Result of consuming a single subscription's stream: either a
terminal outcome, or a broken stream (an ERROR event or channel
closure), which is eligible for one re-subscription. -/
inductive StreamEnd where
  | terminal (o : WaitOutcome)
  | broken
  deriving DecidableEq, Repr

/-- Modelled from the spec: the event-consumption loop of the readiness
waiter (`wait.WaitForReady`, code of this repository outside the
provided sources). Reads items until the deadline elapses; ignores
events for other names; translates DELETE to a terminal failure;
surfaces extraction errors loudly; decides Ready/Failed from the
extracted conditions; an ERROR event or channel closure ends the stream
as broken. -/
def consumeStream (extractor : RuntimeObject → Except ClientError (List Condition))
    (name : String) (deadline : Nat) : List StreamItem → StreamEnd
  | [] => .broken
  | item :: rest =>
    if deadline < item.time then
      .terminal .timedOut
    else if item.kind = .errorEvent then
      .broken
    else if item.objName ≠ name then
      consumeStream extractor name deadline rest
    else if item.kind = .deleted then
      .terminal (.failed "deleted")
    else
      match extractor item.obj with
      | .error _ => .terminal .errored
      | .ok conds =>
        if isReadyConditions conds then
          .terminal .success
        else
          match failedReasonConditions conds with
          | some reason => .terminal (.failed reason)
          | none => consumeStream extractor name deadline rest

/-- Mirrors `wait.WaitForReady` as constructed by `wait.NewWaitForReady`:
the resource kind name, the watch function and the condition extractor,
all fixed for the waiter's lifetime. -/
structure WaitForReady where
  kind : String
  watch : WatchFn
  extractor : RuntimeObject → Except ClientError (List Condition)

/-- Mirrors `wait.NewWaitForReady`. -/
def NewWaitForReady (kind : String) (watch : WatchFn)
    (extractor : RuntimeObject → Except ClientError (List Condition)) : WaitForReady :=
  { kind := kind, watch := watch, extractor := extractor }

/-- Modelled from the spec: `wait.WaitForReady.Wait` (code of this
repository outside the provided sources). Subscribe, consume the stream
against the overall deadline; on a broken stream attempt exactly one
re-subscription within the same deadline budget, a second broken stream
terminating with an errored outcome. Every subscription is closed
before returning; the emitted action list records the open/close pairs
in order. -/
def WaitForReady.Wait (w : WaitForReady) (name : String) (timeout : Nat) :
    WaitOutcome × List WaitAction :=
  match consumeStream w.extractor name timeout (w.watch name 0) with
  | .terminal o => (o, [.subscribe, .close])
  | .broken =>
    match consumeStream w.extractor name timeout (w.watch name 1) with
    | .terminal o => (o, [.subscribe, .close, .subscribe, .close])
    | .broken => (.errored, [.subscribe, .close, .subscribe, .close])

/-- Mirrors `newServiceWaitForReady` (client.go lines 387 to 392). -/
def newServiceWaitForReady (watch : WatchFn) : WaitForReady :=
  NewWaitForReady "service" watch serviceConditionExtractor

/-- The state of a `knServingClient` needed by `WaitForService`: the
namespace-scoped watch function obtained from the collaborator as
`cl.client.Services(cl.namespace).Watch`. -/
structure KnServingClientState where
  serviceWatch : WatchFn

/-- Mirrors `knServingClient.WaitForService` (client.go lines 209 to
212): build the service waiter over the namespace-scoped watch and
return its `Wait` result unchanged. -/
def WaitForService (cl : KnServingClientState) (name : String) (timeout : Nat) :
    WaitOutcome × List WaitAction :=
  (newServiceWaitForReady cl.serviceWatch).Wait name timeout

/-- A string-keyed set of selector entries, mirroring `labels.Set` and
`fields.Set` (Go maps from string to string), as an association list
without duplicate keys; insertion overwrites an existing key. -/
abbrev SelectorSet := List (String × String)

/-- Map insertion with overwrite, mirroring assignment into a Go map. -/
def SelectorSet.insert (s : SelectorSet) (key value : String) : SelectorSet :=
  if s.any (fun kv => kv.1 = key) then
    s.map (fun kv => if kv.1 = key then (key, value) else kv)
  else
    s ++ [(key, value)]

/-- Comma-joining of rendered selector entries, the join used by the
collaborator's Set.String. -/
def joinComma : List String → String
  | [] => ""
  | [x] => x
  | x :: y :: rest => x ++ "," ++ joinComma (y :: rest)

/-- Mirrors `labels.Set.String` and `fields.Set.String` from the k8s
apimachinery collaborator: each entry printed as key=value, the entries
sorted and joined with commas. -/
def SelectorSet.render (s : SelectorSet) : String :=
  joinComma ((s.map (fun kv => kv.1 ++ "=" ++ kv.2)).mergeSort (fun a b => a ≤ b))

/-- Mirrors `listConfigCollector` (client.go lines 84 to 90). -/
structure ListConfigCollector where
  labels : SelectorSet
  fields : SelectorSet

/-- Mirrors `ListConfig`: a config function for the builder pattern; Go
mutates the collector through a pointer, embedded as a function from
collector to collector. -/
abbrev ListConfig := ListConfigCollector → ListConfigCollector

/-- Mirrors `v1.ListOptions` restricted to the fields the client sets;
both selectors default to the empty string. -/
structure ListOptions where
  fieldSelector : String := ""
  labelSelector : String := ""
  deriving DecidableEq, Repr

/-- Mirrors `ListConfigs.toListOptions` (client.go lines 98 to 111):
run every config over an empty collector, then set each selector only
when its set is non-empty. -/
def toListOptions (opts : List ListConfig) : ListOptions :=
  let listConfig := opts.foldl (fun c f => f c) { labels := [], fields := [] }
  let options : ListOptions := {}
  let options :=
    if listConfig.fields.length > 0 then
      { options with fieldSelector := listConfig.fields.render }
    else options
  if listConfig.labels.length > 0 then
    { options with labelSelector := listConfig.labels.render }
  else options

/-- Mirrors `WithName` (client.go lines 114 to 118). -/
def WithName (name : String) : ListConfig :=
  fun lo => { lo with fields := lo.fields.insert "metadata.name" name }

/-- Mirrors `WithService` (client.go lines 121 to 125); the service
label key from `knative.dev/serving/pkg/apis/serving`. -/
def WithService (service : String) : ListConfig :=
  fun lo => { lo with labels := lo.labels.insert "serving.knative.dev/service" service }

/-- Mirrors `v1alpha1.ServiceList`. -/
structure ServiceList where
  typeMeta : TypeMeta
  items : List Service
  deriving DecidableEq, Repr

/-- Mirrors `v1alpha1.RevisionList`. -/
structure RevisionList where
  typeMeta : TypeMeta
  items : List Revision
  deriving DecidableEq, Repr

/-- Mirrors `v1alpha1.RouteList`; routes are opaque to the operations
under study beyond their TypeMeta and name. -/
structure Route where
  typeMeta : TypeMeta
  name : String
  deriving DecidableEq, Repr

/-- Mirrors `v1alpha1.RouteList`. -/
structure RouteList where
  typeMeta : TypeMeta
  items : List Route
  deriving DecidableEq, Repr

/-- `updateServingGvk` applied to a service (kind Service). -/
def updateServingGvkService (s : Service) : Service :=
  { s with typeMeta := updateGvk "Service" s.typeMeta }

/-- `updateServingGvk` applied to a route (kind Route). -/
def updateServingGvkRoute (r : Route) : Route :=
  { r with typeMeta := updateGvk "Route" r.typeMeta }

/-- Mirrors `ListServices` (client.go lines 154 to 175) given the
collaborator's reply: deep-copy the list, update its group/version/kind,
then rebuild the item slice from per-item deep copies each updated in
turn; the result pairs the returned value with the collaborator's list
as the caller still sees it after the call (only deep copies were
touched, so it is returned unchanged). -/
def ListServices (listResult : Except ClientError ServiceList) :
    Except ClientError ServiceList × Except ClientError ServiceList :=
  match listResult with
  | .error e => (.error e, .error e)
  | .ok serviceList =>
    let serviceListNew := { serviceList with typeMeta := updateGvk "ServiceList" serviceList.typeMeta }
    let serviceListNew := { serviceListNew with items := serviceList.items.map (fun service => updateServingGvkService service) }
    (.ok serviceListNew, .ok serviceList)

/-- Mirrors `updateServingGvkForRevisionList` (client.go lines 339 to
356): deep-copy the list, update its group/version/kind, then rebuild
the item slice from per-item deep copies each updated in turn; paired
with the input list as left after the call (unchanged, only deep copies
were touched). -/
def updateServingGvkForRevisionList (revisionList : RevisionList) :
    RevisionList × RevisionList :=
  let revisionListNew := { revisionList with typeMeta := updateGvk "RevisionList" revisionList.typeMeta }
  let revisionListNew := { revisionListNew with items := revisionList.items.map (fun revision => updateServingGvkRevision revision) }
  (revisionListNew, revisionList)

/-- Mirrors `updateServingGvkForRouteList` (client.go lines 360 to 377),
same shape as the revision-list update. -/
def updateServingGvkForRouteList (routeList : RouteList) :
    RouteList × RouteList :=
  let routeListNew := { routeList with typeMeta := updateGvk "RouteList" routeList.typeMeta }
  let routeListNew := { routeListNew with items := routeList.items.map (fun route => updateServingGvkRoute route) }
  (routeListNew, routeList)

/-- Mirrors `ListRevisions` (client.go lines 307 to 313) given the
collaborator's reply. -/
def ListRevisions (listResult : Except ClientError RevisionList) :
    Except ClientError RevisionList × Except ClientError RevisionList :=
  match listResult with
  | .error e => (.error e, .error e)
  | .ok revisionList =>
    let p := updateServingGvkForRevisionList revisionList
    (.ok p.1, .ok p.2)

/-- Mirrors `ListRoutes` (client.go lines 329 to 335) given the
collaborator's reply. -/
def ListRoutes (listResult : Except ClientError RouteList) :
    Except ClientError RouteList × Except ClientError RouteList :=
  match listResult with
  | .error e => (.error e, .error e)
  | .ok routeList =>
    let p := updateServingGvkForRouteList routeList
    (.ok p.1, .ok p.2)

/-! Sample objects used by the concrete witnesses. -/

/-- An unstamped TypeMeta as the collaborator would deliver it. -/
def rawMeta : TypeMeta := { apiVersion := "", kind := "" }

/-- A sample container image. -/
def imgA : Container := { image := "gcr.io/foo/bar:v1" }

/-- A second, different sample container image. -/
def imgB : Container := { image := "gcr.io/foo/bar:v2" }

/-- A sample revision named rev-1 running `imgA`. -/
def revA : Revision := { typeMeta := rawMeta, name := "rev-1", spec := { container := some imgA } }

/-- A sample revision named svc-latest running `imgB`. -/
def revB : Revision := { typeMeta := rawMeta, name := "svc-latest", spec := { container := some imgB } }

/-- A sample cluster store holding `revA` and `revB`. -/
def storeAB : ClusterRevisions := fun n =>
  if n = "rev-1" then some revA else if n = "svc-latest" then some revB else none

/-- A sample template naming rev-1 explicitly. -/
def tmplExplicit : RevisionTemplate := { name := "rev-1", container := some imgA }

/-- A sample template with no explicit name, desiring `imgA`. -/
def tmplAnon : RevisionTemplate := { name := "", container := some imgA }

/-- A service whose template names rev-1 explicitly. -/
def svcExplicit : Service :=
  { typeMeta := rawMeta, name := "svc", template := some tmplExplicit,
    status := { latestCreatedRevisionName := "svc-latest", conditions := [] } }

/-- A service with an anonymous template and the latest-created pointer
set to svc-latest, whose image differs from the template's. -/
def svcLatest : Service :=
  { typeMeta := rawMeta, name := "svc", template := some tmplAnon,
    status := { latestCreatedRevisionName := "svc-latest", conditions := [] } }

/-- A service with an anonymous template and an empty latest-created
pointer. -/
def svcNoPointer : Service :=
  { typeMeta := rawMeta, name := "svc", template := some tmplAnon,
    status := { latestCreatedRevisionName := "", conditions := [] } }

/-! Theorems for the claims. -/

/-- C1: for a service whose revision template carries a non-empty
explicit name, `getBaseRevision` returns exactly the result of fetching
that name, and its result depends only on the fetch at that name — no
latest-created lookup and no image comparison happen on that path. -/
theorem getBaseRevision_explicitName
    (getRev : String → Except ClientError Revision) (s : Service)
    (t : RevisionTemplate) (ht : RevisionTemplateOfService s = .ok t)
    (hn : t.name ≠ "") :
    getBaseRevision getRev s = getRev t.name ∧
    ∀ getRev2 : String → Except ClientError Revision,
      getRev2 t.name = getRev t.name →
      getBaseRevision getRev2 s = getBaseRevision getRev s := by
  have key : ∀ g : String → Except ClientError Revision, getBaseRevision g s = g t.name := by
    intro g
    unfold getBaseRevision
    rw [ht]
    simp [hn]
  exact ⟨key getRev, fun g2 hg => by rw [key g2, key getRev, hg]⟩

/-- Witness for C1 at the concrete service `svcExplicit` over the store
`storeAB`. -/
theorem getBaseRevision_explicitName_witness :
    RevisionTemplateOfService svcExplicit = .ok tmplExplicit ∧
    tmplExplicit.name ≠ "" ∧
    getBaseRevision (GetRevision storeAB) svcExplicit = GetRevision storeAB tmplExplicit.name :=
  ⟨rfl, by decide,
    (getBaseRevision_explicitName (GetRevision storeAB) svcExplicit tmplExplicit rfl
      (by decide)).1⟩

/-- C2: with an empty template name and a non-empty latest-created
pointer whose revision is fetched successfully, an image mismatch
between the fetched revision's container and the template's container
yields the distinguished no-base-revision error, while matching images
yield the fetched revision unchanged. -/
theorem getBaseRevision_latestCreated
    (getRev : String → Except ClientError Revision) (s : Service)
    (t : RevisionTemplate) (latest : Revision) (lc tc : Container)
    (ht : RevisionTemplateOfService s = .ok t)
    (hn : t.name = "")
    (hp : s.status.latestCreatedRevisionName ≠ "")
    (hg : getRev s.status.latestCreatedRevisionName = .ok latest)
    (hlc : ContainerOfRevisionSpec latest.spec = .ok lc)
    (htc : ContainerOfRevisionTemplate t = .ok tc) :
    (lc.image ≠ tc.image → getBaseRevision getRev s = .error noBaseRevisionError) ∧
    (lc.image = tc.image → getBaseRevision getRev s = .ok latest) := by
  constructor <;> intro him <;>
    · unfold getBaseRevision
      rw [ht]
      simp [hn, hp, hg, hlc, htc, him]

/-- Witness for C2 at the concrete service `svcLatest` over the store
`storeAB`, where the images differ. -/
theorem getBaseRevision_latestCreated_witness :
    RevisionTemplateOfService svcLatest = .ok tmplAnon ∧
    tmplAnon.name = "" ∧
    svcLatest.status.latestCreatedRevisionName ≠ "" ∧
    GetRevision storeAB svcLatest.status.latestCreatedRevisionName =
      .ok (updateServingGvkRevision revB) ∧
    ContainerOfRevisionSpec (updateServingGvkRevision revB).spec = .ok imgB ∧
    ContainerOfRevisionTemplate tmplAnon = .ok imgA ∧
    imgB.image ≠ imgA.image ∧
    getBaseRevision (GetRevision storeAB) svcLatest = .error noBaseRevisionError :=
  ⟨rfl, rfl, by decide, rfl, rfl, rfl, by decide,
    (getBaseRevision_latestCreated (GetRevision storeAB) svcLatest tmplAnon
      (updateServingGvkRevision revB) imgB imgA rfl rfl (by decide) rfl rfl rfl).1
      (by decide)⟩

/-- C3: with an empty template name and an empty latest-created pointer,
`getBaseRevision` fails with the distinguished no-base-revision error,
which differs from every not-found error. -/
theorem getBaseRevision_noPointer
    (getRev : String → Except ClientError Revision) (s : Service)
    (t : RevisionTemplate) (ht : RevisionTemplateOfService s = .ok t)
    (hn : t.name = "")
    (hp : s.status.latestCreatedRevisionName = "") :
    getBaseRevision getRev s = .error noBaseRevisionError ∧
    ∀ name, noBaseRevisionError ≠ ClientError.notFound name := by
  constructor
  · unfold getBaseRevision
    rw [ht]
    simp [hn, hp]
  · intro name
    simp [noBaseRevisionError]

/-- Witness for C3 at the concrete service `svcNoPointer`. -/
theorem getBaseRevision_noPointer_witness :
    RevisionTemplateOfService svcNoPointer = .ok tmplAnon ∧
    tmplAnon.name = "" ∧
    svcNoPointer.status.latestCreatedRevisionName = "" ∧
    (getBaseRevision (GetRevision storeAB) svcNoPointer = .error noBaseRevisionError ∧
      ∀ name, noBaseRevisionError ≠ ClientError.notFound name) :=
  ⟨rfl, rfl, rfl,
    getBaseRevision_noPointer (GetRevision storeAB) svcNoPointer tmplAnon rfl rfl rfl⟩

/-- C4: when the template names an explicit revision absent from the
cluster store, `getBaseRevision` surfaces the collaborator's not-found
error for that very name unchanged, which is not the no-base-revision
error. -/
theorem getBaseRevision_explicitMissing
    (store : ClusterRevisions) (s : Service) (t : RevisionTemplate)
    (ht : RevisionTemplateOfService s = .ok t)
    (hn : t.name ≠ "")
    (hmiss : store t.name = none) :
    getBaseRevision (GetRevision store) s = .error (.notFound t.name) ∧
    ClientError.notFound t.name ≠ noBaseRevisionError := by
  constructor
  · unfold getBaseRevision
    rw [ht]
    simp [hn, GetRevision, hmiss]
  · simp [noBaseRevisionError]

/-- Witness for C4: the service asking for rev-42 over a store holding
only rev-1 and svc-latest. -/
theorem getBaseRevision_explicitMissing_witness :
    RevisionTemplateOfService
      { typeMeta := rawMeta, name := "svc",
        template := some { name := "rev-42", container := some imgA },
        status := { latestCreatedRevisionName := "svc-latest", conditions := [] } } =
      .ok { name := "rev-42", container := some imgA } ∧
    ("rev-42" : String) ≠ "" ∧
    storeAB "rev-42" = none ∧
    getBaseRevision (GetRevision storeAB)
      { typeMeta := rawMeta, name := "svc",
        template := some { name := "rev-42", container := some imgA },
        status := { latestCreatedRevisionName := "svc-latest", conditions := [] } } =
      .error (.notFound "rev-42") :=
  ⟨rfl, by decide, by decide,
    (getBaseRevision_explicitMissing storeAB
      { typeMeta := rawMeta, name := "svc",
        template := some { name := "rev-42", container := some imgA },
        status := { latestCreatedRevisionName := "svc-latest", conditions := [] } }
      { name := "rev-42", container := some imgA } rfl (by decide) (by decide)).1⟩

/-- C5: the service condition extractor errors exactly on objects that
are not services, and on a service returns its status conditions
unchanged. -/
theorem serviceConditionExtractor_spec (obj : RuntimeObject) :
    ((∃ e, serviceConditionExtractor obj = .error e) ↔ ∀ s, obj ≠ .service s) ∧
    (∀ s, obj = .service s → serviceConditionExtractor obj = .ok s.status.conditions) := by
  cases obj with
  | service s =>
    refine ⟨⟨fun ⟨e, he⟩ => absurd he (by simp [serviceConditionExtractor]),
      fun h => absurd rfl (h s)⟩, ?_⟩
    intro s2 hs2
    cases hs2
    rfl
  | revision r =>
    refine ⟨⟨fun _ s hs => (by cases hs), fun _ => ⟨_, rfl⟩⟩, ?_⟩
    intro s hs
    cases hs
  | other d =>
    refine ⟨⟨fun _ s hs => (by cases hs), fun _ => ⟨_, rfl⟩⟩, ?_⟩
    intro s hs
    cases hs

/-- Witness for C5: the extractor succeeds on a concrete service and
errors on a non-service object. -/
theorem serviceConditionExtractor_spec_witness :
    serviceConditionExtractor (.service svcExplicit) = .ok svcExplicit.status.conditions ∧
    (∃ e, serviceConditionExtractor (.revision revA) = .error e) :=
  ⟨(serviceConditionExtractor_spec (.service svcExplicit)).2 svcExplicit rfl,
    (serviceConditionExtractor_spec (.revision revA)).1.mpr (fun s hs => by cases hs)⟩

/-- C6: `WaitForService` is exactly `Wait` on the readiness waiter built
with kind service, the namespace-scoped service watch as event source,
and the service condition extractor, with no other processing of the
result. -/
theorem WaitForService_refines (cl : KnServingClientState) (name : String) (timeout : Nat) :
    WaitForService cl name timeout =
      WaitForReady.Wait (NewWaitForReady "service" cl.serviceWatch serviceConditionExtractor)
        name timeout ∧
    (newServiceWaitForReady cl.serviceWatch).kind = "service" ∧
    (newServiceWaitForReady cl.serviceWatch).watch = cl.serviceWatch ∧
    (newServiceWaitForReady cl.serviceWatch).extractor = serviceConditionExtractor :=
  ⟨rfl, rfl, rfl, rfl⟩

/-- A watch whose every subscription immediately delivers a stream
error, used by the retry witnesses. -/
def errorWatch : WatchFn := fun _ _ =>
  [{ time := 0, kind := .errorEvent, objName := "svc", obj := .other "stream error" }]

/-- The service waiter over `errorWatch`. -/
def errorWaiter : WaitForReady := NewWaitForReady "service" errorWatch serviceConditionExtractor

/-- C7: within a single `Wait` call at most two subscriptions are ever
opened; a broken first stream leads to exactly one re-subscription (two
subscriptions in total), a first stream that ends terminally leads to
none, and two consecutive broken streams terminate the wait with the
errored outcome. -/
theorem Wait_retry_once (w : WaitForReady) (name : String) (timeout : Nat) :
    (w.Wait name timeout).2.count .subscribe ≤ 2 ∧
    (consumeStream w.extractor name timeout (w.watch name 0) = .broken →
      (w.Wait name timeout).2.count .subscribe = 2) ∧
    (consumeStream w.extractor name timeout (w.watch name 0) ≠ .broken →
      (w.Wait name timeout).2.count .subscribe = 1) ∧
    (consumeStream w.extractor name timeout (w.watch name 0) = .broken →
      consumeStream w.extractor name timeout (w.watch name 1) = .broken →
      (w.Wait name timeout).1 = .errored) := by
  cases h0 : consumeStream w.extractor name timeout (w.watch name 0) with
  | terminal o =>
    refine ⟨?_, ?_, ?_, ?_⟩ <;> simp [WaitForReady.Wait, h0]
  | broken =>
    cases h1 : consumeStream w.extractor name timeout (w.watch name 1) with
    | terminal o =>
      refine ⟨?_, ?_, ?_, ?_⟩ <;> simp [WaitForReady.Wait, h0, h1]
    | broken =>
      refine ⟨?_, ?_, ?_, ?_⟩ <;> simp [WaitForReady.Wait, h0, h1]

/-- Witness for C7: over `errorWatch` both streams break, two
subscriptions happen, and the outcome is errored. -/
theorem Wait_retry_once_witness :
    consumeStream errorWaiter.extractor "svc" 10 (errorWaiter.watch "svc" 0) = .broken ∧
    consumeStream errorWaiter.extractor "svc" 10 (errorWaiter.watch "svc" 1) = .broken ∧
    (errorWaiter.Wait "svc" 10).2.count .subscribe = 2 ∧
    (errorWaiter.Wait "svc" 10).1 = .errored :=
  ⟨rfl, rfl,
    (Wait_retry_once errorWaiter "svc" 10).2.1 rfl,
    (Wait_retry_once errorWaiter "svc" 10).2.2.2 rfl rfl⟩

/-- C8: every `Wait` call closes exactly as many subscriptions as it
opens before returning, whatever the outcome: its action trace is one
balanced open/close pair, or two for the re-subscription path. -/
theorem Wait_closes_subscription (w : WaitForReady) (name : String) (timeout : Nat) :
    (w.Wait name timeout).2.count .close = (w.Wait name timeout).2.count .subscribe ∧
    ((w.Wait name timeout).2 = [.subscribe, .close] ∨
      (w.Wait name timeout).2 = [.subscribe, .close, .subscribe, .close]) := by
  cases h0 : consumeStream w.extractor name timeout (w.watch name 0) with
  | terminal o =>
    constructor <;> simp [WaitForReady.Wait, h0]
  | broken =>
    cases h1 : consumeStream w.extractor name timeout (w.watch name 1) with
    | terminal o =>
      constructor <;> simp [WaitForReady.Wait, h0, h1]
    | broken =>
      constructor <;> simp [WaitForReady.Wait, h0, h1]

/-- The first entry of a comma-join is a segment of the result, so the
join is at least as long as that entry. -/
theorem joinComma_head_le (x : String) (xs : List String) :
    x.length ≤ (joinComma (x :: xs)).length := by
  cases xs with
  | nil => exact le_refl _
  | cons y rest =>
    simp only [joinComma, String.length_append]
    omega

/-- Rendering a non-empty selector set never yields the empty string:
every entry prints as key=value, which has at least the separator
character. -/
theorem render_ne_empty (s : SelectorSet) (h : s ≠ []) : s.render ≠ "" := by
  unfold SelectorSet.render
  have hlen : ((s.map (fun kv => kv.1 ++ "=" ++ kv.2)).mergeSort (fun a b => a ≤ b)).length
      = s.length := by
    rw [List.length_mergeSort, List.length_map]
  have hpos : ((s.map (fun kv => kv.1 ++ "=" ++ kv.2)).mergeSort (fun a b => a ≤ b)) ≠ [] := by
    intro hnil
    rw [hnil] at hlen
    exact h (List.eq_nil_of_length_eq_zero hlen.symm)
  obtain ⟨x, xs, hx⟩ := List.exists_cons_of_ne_nil hpos
  have hxmem : x ∈ s.map (fun kv => kv.1 ++ "=" ++ kv.2) := by
    have hmem : x ∈ (s.map (fun kv => kv.1 ++ "=" ++ kv.2)).mergeSort (fun a b => a ≤ b) := by
      rw [hx]
      exact List.mem_cons_self x xs
    exact List.mem_mergeSort.1 hmem
  obtain ⟨kv, _, hkv⟩ := List.mem_map.1 hxmem
  have hsep : ("=" : String).length = 1 := rfl
  have hxlen : 1 ≤ x.length := by
    rw [← hkv]
    simp only [String.length_append]
    omega
  rw [hx]
  intro hempty
  have hle := joinComma_head_le x xs
  rw [hempty] at hle
  simp at hle
  omega

/-- C9: `toListOptions` sets the field selector exactly when the configs
accumulated at least one field entry, and the label selector exactly
when they accumulated at least one label entry, each selector carrying
the rendered accumulated set; zero configs request no filtering at
all. -/
theorem toListOptions_selectors (opts : List ListConfig) (c : ListConfigCollector)
    (hc : opts.foldl (fun acc f => f acc) { labels := [], fields := [] } = c) :
    ((toListOptions opts).fieldSelector = if c.fields = [] then "" else c.fields.render) ∧
    (c.fields ≠ [] → (toListOptions opts).fieldSelector ≠ "") ∧
    ((toListOptions opts).labelSelector = if c.labels = [] then "" else c.labels.render) ∧
    (c.labels ≠ [] → (toListOptions opts).labelSelector ≠ "") ∧
    toListOptions [] = { fieldSelector := "", labelSelector := "" } := by
  have hfield : (toListOptions opts).fieldSelector =
      if c.fields = [] then "" else c.fields.render := by
    simp only [toListOptions, hc]
    rcases hf : c.fields with _ | ⟨kv, rest⟩ <;> rcases hl : c.labels with _ | ⟨kv2, rest2⟩ <;>
      simp [hf, hl]
  have hlabel : (toListOptions opts).labelSelector =
      if c.labels = [] then "" else c.labels.render := by
    simp only [toListOptions, hc]
    rcases hf : c.fields with _ | ⟨kv, rest⟩ <;> rcases hl : c.labels with _ | ⟨kv2, rest2⟩ <;>
      simp [hf, hl]
  refine ⟨hfield, ?_, hlabel, ?_, rfl⟩
  · intro hne
    rw [hfield, if_neg hne]
    exact render_ne_empty c.fields hne
  · intro hne
    rw [hlabel, if_neg hne]
    exact render_ne_empty c.labels hne

/-- Witness for C9: one name filter and one service filter produce both
selectors, and zero configs produce none. -/
theorem toListOptions_selectors_witness :
    ([WithName "foo", WithService "bar"].foldl (fun acc f => f acc)
        { labels := [], fields := [] } : ListConfigCollector) =
      { labels := [("serving.knative.dev/service", "bar")],
        fields := [("metadata.name", "foo")] } ∧
    (toListOptions [WithName "foo", WithService "bar"]).fieldSelector = "metadata.name=foo" ∧
    (toListOptions [WithName "foo", WithService "bar"]).fieldSelector ≠ "" ∧
    (toListOptions [WithName "foo", WithService "bar"]).labelSelector =
      "serving.knative.dev/service=bar" ∧
    (toListOptions []).fieldSelector = "" ∧
    (toListOptions []).labelSelector = "" := by
  refine ⟨rfl, ?_, ?_, ?_, rfl, rfl⟩
  · have h := (toListOptions_selectors [WithName "foo", WithService "bar"]
      { labels := [("serving.knative.dev/service", "bar")],
        fields := [("metadata.name", "foo")] } rfl).1
    rw [h]
    simp [SelectorSet.render, joinComma]
  · exact (toListOptions_selectors [WithName "foo", WithService "bar"]
      { labels := [("serving.knative.dev/service", "bar")],
        fields := [("metadata.name", "foo")] } rfl).2.1 (by decide)
  · have h := (toListOptions_selectors [WithName "foo", WithService "bar"]
      { labels := [("serving.knative.dev/service", "bar")],
        fields := [("metadata.name", "foo")] } rfl).2.2.1
    rw [h]
    simp [SelectorSet.render, joinComma]

/-- C10: each successful list operation returns a list whose items are
the collaborator's items mapped one-for-one and in order through the
group/version/kind update on a deep copy, so the item count matches, and
the collaborator's original list is left unmodified. -/
theorem listOps_preserve (sl : ServiceList) (rl : RevisionList) (tl : RouteList) :
    ((ListServices (.ok sl)).1 =
        .ok { typeMeta := updateGvk "ServiceList" sl.typeMeta,
              items := sl.items.map updateServingGvkService } ∧
      (ListServices (.ok sl)).2 = .ok sl ∧
      (sl.items.map updateServingGvkService).length = sl.items.length) ∧
    ((ListRevisions (.ok rl)).1 =
        .ok { typeMeta := updateGvk "RevisionList" rl.typeMeta,
              items := rl.items.map updateServingGvkRevision } ∧
      (ListRevisions (.ok rl)).2 = .ok rl ∧
      (rl.items.map updateServingGvkRevision).length = rl.items.length) ∧
    ((ListRoutes (.ok tl)).1 =
        .ok { typeMeta := updateGvk "RouteList" tl.typeMeta,
              items := tl.items.map updateServingGvkRoute } ∧
      (ListRoutes (.ok tl)).2 = .ok tl ∧
      (tl.items.map updateServingGvkRoute).length = tl.items.length) := by
  refine ⟨⟨rfl, rfl, ?_⟩, ⟨rfl, rfl, ?_⟩, ⟨rfl, rfl, ?_⟩⟩ <;> simp

end KnClient
